import Mathlib

/-!
Shallow embedding of `covid19_inference/data_retrieval.py`.

The module has two adapters: `JHU` (global dashboard, wide CSV per metric)
and `RKI` (national institute, one flat long-format table of case-report
records).  Datetimes are encoded by integers (their epoch timestamps);
`datetime.datetime.fromtimestamp` and `pd.to_datetime` are order-preserving
injections, so the encoding preserves every comparison the source performs.
Python values that can flow into the date arguments are modelled by `PyVal`
(a datetime, a plain string, or a `(country, state)` tuple label), so the
`isinstance(x, datetime.datetime)` checks of the source are expressible.
Exceptions are modelled by `Except String`.
-/

/-- Python value that can appear as a series index label or as a
`begin_date` / `end_date` argument: a datetime (encoded as `Int`),
an arbitrary non-datetime string, or a `(country, state)` tuple. -/
inductive PyVal where
  | dt (d : Int)
  | pystr (s : String)
  | pair (c s : String)
deriving DecidableEq, Repr

/-- Model of `isinstance(x, datetime.datetime)`. -/
def isDt : PyVal → Bool
  | .dt _ => true
  | _ => false

/-- Model of the buggy guard
`if not isinstance(begin_date, datetime.datetime) and isinstance(end_date, datetime.datetime)`
appearing verbatim in `JHU.filter_date`, `RKI.filter` and
`RKI.filter_all_bundesland`: due to Python operator precedence it fires only
when `begin_date` is not a datetime while `end_date` is one. -/
def dateGuardFires (b e : PyVal) : Bool :=
  (!isDt b) && isDt e

/-- Lexicographic comparison of character lists by code point (the
comparison Python applies to strings). -/
def charListLt : List Char → List Char → Bool
  | [], [] => false
  | [], _ :: _ => true
  | _ :: _, [] => false
  | c :: cs, d :: ds =>
    if c.val < d.val then true
    else if d.val < c.val then false
    else charListLt cs ds

/-- Python string `<`. -/
def strLt (a b : String) : Bool := charListLt a.toList b.toList

/-- Python string `<=`. -/
def strLe (a b : String) : Bool := !strLt b a

/-! ### RKI data model

One row of `RKI.data`: a case-report record.  The columns the filter
accessors read are the region hierarchy (`Bundesland`, `Landkreis`), the
three per-record counts, and the two derived datetime columns `date`
(from `Meldedatum`) and `date_ref` (from `Refdatum`).  The remaining
columns (`Altersgruppe`, `Geschlecht`, `NeuerFall`, `NeuGenesen`,
`Meldedatum`, `Refdatum` raw) are never read by the filters and are
omitted from the record. -/
structure Record where
  bundesland : String
  landkreis : String
  anzahlFall : Int
  anzahlTodesfall : Int
  anzahlGenesen : Int
  date : Int
  dateRef : Int
deriving DecidableEq, Repr

/-- Column access `df[date_type]` for `date_type ∈ {"date", "date_ref"}`. -/
def getCol (date_type : String) (r : Record) : Int :=
  if date_type == "date_ref" then r.dateRef else r.date

/-- Column access `df[variable]` for the three metric columns. -/
def getMetric (variable_ : String) (r : Record) : Int :=
  if variable_ == "AnzahlTodesfall" then r.anzahlTodesfall
  else if variable_ == "AnzahlGenesen" then r.anzahlGenesen
  else r.anzahlFall

/-- Validation `variable in ['AnzahlFall', 'AnzahlTodesfall', 'AnzahlGenesen']`. -/
def validVariable (variable_ : String) : Bool :=
  variable_ == "AnzahlFall" || variable_ == "AnzahlTodesfall" || variable_ == "AnzahlGenesen"

/-- Validation `level in ['Landkreis', 'Bundesland', None]`. -/
def validLevel (level : Option String) : Bool :=
  level == some "Landkreis" || level == some "Bundesland" || level == none

/-- Validation `date_type in ['date', 'date_ref']`. -/
def validDateType (date_type : String) : Bool :=
  date_type == "date" || date_type == "date_ref"

/-- Row predicate for `df[df[level]==value]`.  When `value` is Python
`None`, the elementwise comparison `column == None` is `False` for every
row, so nothing matches. -/
def levelMatches (level : String) (value? : Option String) (r : Record) : Bool :=
  match value? with
  | none => false
  | some v => (if level == "Landkreis" then r.landkreis else r.bundesland) == v

/-- Row restriction of `RKI.filter`: keep all rows when `level is None`,
otherwise keep the rows whose `level` column equals `value`. -/
def rkiSelectRows (data : List Record) (level : Option String) (value? : Option String) :
    List Record :=
  match level with
  | none => data
  | some l => data.filter (levelMatches l value?)

/-- Insert one `(key, value)` pair into a key-sorted association list,
adding the value to an existing entry with the same key.  Building a list
with this insertion models the per-key sums of `df.groupby(key)[val].sum()`
(pandas sorts group keys ascending). -/
def insertAdd (d v : Int) : List (Int × Int) → List (Int × Int)
  | [] => [(d, v)]
  | (d0, v0) :: rest =>
    if d < d0 then (d, v) :: (d0, v0) :: rest
    else if d = d0 then (d0, v0 + v) :: rest
    else (d0, v0) :: insertAdd d v rest

/-- Model of `df.groupby(key)[val].sum()`: the ascending-key association
list of per-key sums of `val` over the rows. -/
def groupbySum (key val : Record → Int) : List Record → List (Int × Int)
  | [] => []
  | r :: rest => insertAdd (key r) (val r) (groupbySum key val rest)

/-- Model of `series.cumsum()` (with an explicit running total). -/
def cumsum (acc : Int) : List (Int × Int) → List (Int × Int)
  | [] => []
  | (d, v) :: rest => (d, acc + v) :: cumsum (acc + v) rest

/-- Cumulative series built by `RKI.filter` before date slicing:
`df.groupby(date_type)[variable].sum().cumsum()` over the region-restricted
rows. -/
def rkiSeries (data : List Record) (variable_ date_type : String)
    (level : Option String) (value? : Option String) : List (Int × Int) :=
  cumsum 0 (groupbySum (getCol date_type) (getMetric variable_)
    (rkiSelectRows data level value?))

/-- Default `begin_date` of `RKI.filter`:
`self.data.sort_values(date_type)[date_type].iloc[0]`, i.e. the minimum of
the date column; `iloc[0]` on an empty frame raises `IndexError`. -/
def colFirstSorted (data : List Record) (date_type : String) : Option Int :=
  match data.map (getCol date_type) with
  | [] => none
  | x :: xs => some (xs.foldl min x)

/-- Default `end_date` of `RKI.filter`: `iloc[-1]` of the sorted date
column, i.e. its maximum. -/
def colLastSorted (data : List Record) (date_type : String) : Option Int :=
  match data.map (getCol date_type) with
  | [] => none
  | x :: xs => some (xs.foldl max x)

/-- Resolve an optional date argument against its default; a missing
default (empty data) is pandas `IndexError`. -/
def resolveBound (default? : Option Int) (given? : Option PyVal) : Except String PyVal :=
  match given? with
  | some b => .ok b
  | none =>
    match default? with
    | some d => .ok (.dt d)
    | none => .error "IndexError: single positional indexer is out-of-bounds"

/-- Label slice `series[begin_date:end_date]` on the datetime-indexed
cumulative series.  Non-datetime slice labels that pandas cannot interpret
against a `DatetimeIndex` raise inside pandas; that failure is modelled by
an error value. -/
def sliceRKI (b e : PyVal) (s : List (Int × Int)) : Except String (List (Int × Int)) :=
  match b, e with
  | .dt bb, .dt ee => .ok (s.filter (fun p => decide (bb ≤ p.1) && decide (p.1 ≤ ee)))
  | _, _ => .error "TypeError: cannot slice a DatetimeIndex with these labels"

/-- Model of `RKI.filter(begin_date, end_date, variable, date_type, level, value)`:
validate the three enumerated arguments, default the date endpoints from
the sorted date column, run the (buggy) datetime-instance guard, restrict
to the selected region, group by date, sum, cumulative-sum, and slice. -/
def rkiFilter (data : List Record) (begin? end? : Option PyVal)
    (variable_ date_type : String) (level : Option String) (value? : Option String) :
    Except String (List (Int × Int)) :=
  if ¬ validVariable variable_ then
    .error "Invalid variable. Valid options: \"AnzahlFall\", \"AnzahlTodesfall\", \"AnzahlGenesen\""
  else if ¬ validLevel level then
    .error "Invalid level. Valid options: \"Landkreis\", \"Bundesland\", None"
  else if ¬ validDateType date_type then
    .error "Invalid date_type. Valid options: \"date\", \"date_ref\""
  else
    match resolveBound (colFirstSorted data date_type) begin? with
    | .error m => .error m
    | .ok b =>
      match resolveBound (colLastSorted data date_type) end? with
      | .error m => .error m
      | .ok e =>
        if dateGuardFires b e then
          .error "Invalid begin_date, end_date: has to be datetime.datetime object"
        else
          sliceRKI b e (rkiSeries data variable_ date_type level value?)

/-! ### RKI metric accessors and daily-new variants -/

/-- Level/value computation shared by `RKI.get_confirmed`,
`RKI.get_deaths` and `RKI.get_recovered`: `landkreis` (checked second)
overrides `bundesland`; with neither, `level` and `value` stay `None`. -/
def rkiLevelValue (bundesland landkreis : Option String) : Option String × Option String :=
  match landkreis with
  | some lk => (some "Landkreis", some lk)
  | none =>
    match bundesland with
    | some bl => (some "Bundesland", some bl)
    | none => (none, none)

/-- Model of `RKI.get_confirmed`: delegate to `filter` with
`variable='AnzahlFall'`. -/
def rkiGetConfirmed (data : List Record) (bundesland landkreis : Option String)
    (begin? end? : Option PyVal) (date_type : String) : Except String (List (Int × Int)) :=
  rkiFilter data begin? end? "AnzahlFall" date_type
    (rkiLevelValue bundesland landkreis).1 (rkiLevelValue bundesland landkreis).2

/-- Model of `RKI.get_deaths`: delegate to `filter` with
`variable='AnzahlTodesfall'`. -/
def rkiGetDeaths (data : List Record) (bundesland landkreis : Option String)
    (begin? end? : Option PyVal) (date_type : String) : Except String (List (Int × Int)) :=
  rkiFilter data begin? end? "AnzahlTodesfall" date_type
    (rkiLevelValue bundesland landkreis).1 (rkiLevelValue bundesland landkreis).2

/-- Model of `RKI.get_recovered`: delegate to `filter` with
`variable='AnzahlGenesen'`. -/
def rkiGetRecovered (data : List Record) (bundesland landkreis : Option String)
    (begin? end? : Option PyVal) (date_type : String) : Except String (List (Int × Int)) :=
  rkiFilter data begin? end? "AnzahlGenesen" date_type
    (rkiLevelValue bundesland landkreis).1 (rkiLevelValue bundesland landkreis).2

/-- Positional first difference of a labelled series, with the undefined
first row (the `NaN` row of `df.diff()`) left out: row `i > 0` becomes
`(label i, value i - value (i-1))`. -/
def diffPairs {α : Type} : List (α × Int) → List (α × Int)
  | [] => []
  | _ :: [] => []
  | a :: b :: rest => (b.1, b.2 - a.2) :: diffPairs (b :: rest)

/-- Model of the daily-new one-liner
`df.diff().drop(df.index[0]).astype(int)`:
`df.index[0]` on an empty frame raises `IndexError`; `drop(label)` removes
every row carrying the first label (which includes the `NaN` first row of
the diff, so `astype(int)` succeeds on the remainder). -/
def pandasNewSeries {α : Type} [DecidableEq α] (s : List (α × Int)) :
    Except String (List (α × Int)) :=
  match s with
  | [] => .error "IndexError: index 0 is out of bounds for axis 0 with size 0"
  | first :: _ => .ok ((diffPairs s).filter (fun p => p.1 ≠ first.1))

/-- Model of `RKI.get_new_confirmed`: the cumulative accessor followed by
the diff/drop/astype one-liner (an exception in the former propagates). -/
def rkiGetNewConfirmed (data : List Record) (bundesland landkreis : Option String)
    (begin? end? : Option PyVal) (date_type : String) : Except String (List (Int × Int)) :=
  rkiGetConfirmed data bundesland landkreis begin? end? date_type >>= pandasNewSeries

/-- Model of `RKI.get_new_deaths`. -/
def rkiGetNewDeaths (data : List Record) (bundesland landkreis : Option String)
    (begin? end? : Option PyVal) (date_type : String) : Except String (List (Int × Int)) :=
  rkiGetDeaths data bundesland landkreis begin? end? date_type >>= pandasNewSeries

/-- Model of `RKI.get_new_recovered`. -/
def rkiGetNewRecovered (data : List Record) (bundesland landkreis : Option String)
    (begin? end? : Option PyVal) (date_type : String) : Except String (List (Int × Int)) :=
  rkiGetRecovered data bundesland landkreis begin? end? date_type >>= pandasNewSeries

/-! ### RKI download: discovery, per-region retry loop, fallback

The network is modelled by oracles: the list of region identifiers the
discovery query returns, and for each region identifier the outcome of
each successive query attempt. -/

/-- Raw per-record attributes as returned by one per-region query
(before the two datetime columns are derived). -/
structure RawRecord where
  bundesland : String
  landkreis : String
  anzahlFall : Int
  anzahlTodesfall : Int
  anzahlGenesen : Int
  meldedatum : Int
  refdatum : Int
deriving DecidableEq, Repr

/-- Encoding of `datetime.datetime.fromtimestamp(x/1e3)`: an
order-preserving injection from millisecond timestamps into the integer
datetime encoding; the identity suffices for every comparison the source
makes. -/
def fromtimestampMs (x : Int) : Int := x

/-- Derivation of the `date` and `date_ref` columns after the per-region
download: `df['date'] = df['Meldedatum'].apply(fromtimestamp)` and
`df['date_ref'] = df['Refdatum'].apply(fromtimestamp)`. -/
def rawToRecord (r : RawRecord) : Record :=
  ⟨r.bundesland, r.landkreis, r.anzahlFall, r.anzahlTodesfall, r.anzahlGenesen,
    fromtimestampMs r.meldedatum, fromtimestampMs r.refdatum⟩

/-- One row of the bundled fallback CSV `rki_fallback_gzip.dat`.  The file
carries its own reference-date column, but the loading code never reads
it: both derived columns are parsed from the `date` column. -/
structure FallbackRow where
  bundesland : String
  landkreis : String
  anzahlFall : Int
  anzahlTodesfall : Int
  anzahlGenesen : Int
  date : Int
  dateRefCsv : Int
deriving DecidableEq, Repr

/-- Fallback loading: `df['date'] = pd.to_datetime(df['date'], ...)` and
`df['date_ref'] = pd.to_datetime(df['date'], ...)` — the `date_ref`
column is derived from the same `date` column, so both derived columns
coincide and `dateRefCsv` is ignored. -/
def fallbackToRecord (r : FallbackRow) : Record :=
  ⟨r.bundesland, r.landkreis, r.anzahlFall, r.anzahlTodesfall, r.anzahlGenesen,
    r.date, r.date⟩

/-- Outcome of one per-region query attempt: an exception
(network/JSON failure), or a feature list whose length is the reported
hit count. -/
inductive QueryOutcome where
  | fail
  | ok (features : List RawRecord)
deriving DecidableEq, Repr

/-- Attempt outcomes that make the retry loop try again: an exception, or
a hit count over the pagination ceiling (`n_data > 5000` raises
`ValueError('Query limit exceeded')`, caught by the bare `except`). -/
def isBadAttempt : QueryOutcome → Bool
  | .fail => true
  | .ok feats => decide (feats.length > 5000)

/-- Feature list of a successful attempt (empty for a failed one). -/
def QueryOutcome.okData : QueryOutcome → List RawRecord
  | .fail => []
  | .ok feats => feats

/-- Network oracle for `RKI.download_all_available_data`: the region
identifiers enumerated by the discovery query, the outcome of the `i`-th
query attempt for each region identifier, and the content of the bundled
fallback snapshot. -/
structure RKINet where
  discovery : List String
  query : String → Nat → QueryOutcome
  fallbackRows : List FallbackRow

/-- The `while count_try < try_max` retry loop for one region: attempt
queries in order; a good attempt breaks out with its feature list; when
`count_try` reaches `try_max` the loop exits and
`ValueError('Maximum limit of tries exceeded.')` is raised. -/
def fetchRegionAux (q : Nat → QueryOutcome) (try_max count_try : Nat) :
    Except String (List RawRecord) :=
  if _h : count_try < try_max then
    match q count_try with
    | .fail => fetchRegionAux q try_max (count_try + 1)
    | .ok feats =>
      if feats.length > 5000 then fetchRegionAux q try_max (count_try + 1)
      else .ok feats
  else .error "Maximum limit of tries exceeded."
termination_by try_max - count_try
decreasing_by all_goals omega

/-- Retry loop entered with `count_try = 0`. -/
def fetchRegion (q : Nat → QueryOutcome) (try_max : Nat) : Except String (List RawRecord) :=
  fetchRegionAux q try_max 0

/-- The `for idlandkreis in unique_ids` loop: fetch each region with the
retry loop and concatenate its records onto the accumulated frame; an
exception raised for any region aborts the loop. -/
def downloadRegions (query : String → Nat → QueryOutcome) (try_max : Nat)
    (acc : List Record) : List String → Except String (List Record)
  | [] => .ok acc
  | id :: rest =>
    match fetchRegion (query id) try_max with
    | .error m => .error m
    | .ok feats => downloadRegions query try_max (acc ++ feats.map rawToRecord) rest

/-- Model of `RKI.download_all_available_data(try_max)`: if the discovery
query enumerates at least `landkreise_max = 412` region identifiers, fetch
each region with the retry loop and concatenate (deriving the two date
columns); otherwise load the bundled fallback snapshot (a warning is
printed on that path). -/
def downloadAllAvailableData (net : RKINet) (try_max : Nat) : Except String (List Record) :=
  if 412 ≤ net.discovery.length then
    downloadRegions net.query try_max [] net.discovery
  else
    .ok (net.fallbackRows.map fallbackToRecord)

/-- Effect of one `download_all_available_data` call on the adapter's
`data` attribute: `self.data = df` executes only after the whole download
succeeds; a raised exception leaves the attribute as it was. -/
def rkiDownloadStep (st : Option (List Record)) (net : RKINet) (try_max : Nat) :
    Option (List Record) :=
  match downloadAllAvailableData net try_max with
  | .ok df => some df
  | .error _ => st

/-! ### RKI.filter_all_bundesland -/

/-- Insert into a sorted duplicate-free list (used to model the sorted
unique keys produced by `groupby` and `pivot`). -/
def insertUnique {α : Type} [DecidableEq α] (lt : α → α → Bool) (a : α) :
    List α → List α
  | [] => [a]
  | b :: rest =>
    if lt a b then a :: b :: rest
    else if a = b then b :: rest
    else b :: insertUnique lt a rest

/-- Ascending duplicate-free list of the elements of `l`. -/
def uniqueSorted {α : Type} [DecidableEq α] (lt : α → α → Bool) (l : List α) : List α :=
  l.foldr (insertUnique lt) []

/-- Sum of `variable` over the records of one `(date, Bundesland)` group
(the `fillna(0)` of the pivot is the empty sum). -/
def cellSum (data : List Record) (date_type variable_ : String) (d : Int) (bl : String) :
    Int :=
  (data.filter (fun r => getCol date_type r == d && r.bundesland == bl)).foldl
    (fun a r => a + getMetric variable_ r) 0

/-- Pivot table of `filter_all_bundesland`: one row per date
(ascending), one column per Bundesland (ascending), missing combinations
filled with zero. -/
structure Pivot where
  columns : List String
  rows : List (Int × List Int)
deriving DecidableEq, Repr

/-- Per-column running sum of `df.cumsum()` over the pivot rows. -/
def cumsumRows (acc : List Int) : List (Int × List Int) → List (Int × List Int)
  | [] => []
  | (d, vs) :: rest =>
    let acc2 := List.zipWith (· + ·) acc vs
    (d, acc2) :: cumsumRows acc2 rest

/-- Default `begin_date` of `filter_all_bundesland`:
`self.data[date_type].iloc[0]` — the raw first row, without sorting. -/
def colHeadRaw (data : List Record) (date_type : String) : Option Int :=
  (data.map (getCol date_type)).head?

/-- Default `end_date` of `filter_all_bundesland`:
`self.data[date_type].iloc[-1]` — the raw last row. -/
def colLastRaw (data : List Record) (date_type : String) : Option Int :=
  (data.map (getCol date_type)).getLast?

/-- Model of `RKI.filter_all_bundesland(begin_date, end_date, variable,
date_type)`: validate `variable` and `date_type`, default the endpoints
from the raw date column, run the (buggy) datetime-instance guard, build
the per-Bundesland pivot of daily sums, slice to the date range, and take
the per-column cumulative sum. -/
def rkiFilterAllBundesland (data : List Record) (begin? end? : Option PyVal)
    (variable_ date_type : String) : Except String Pivot :=
  if ¬ validVariable variable_ then
    .error "Invalid variable. Valid options: \"AnzahlFall\", \"AnzahlTodesfall\", \"AnzahlGenesen\""
  else if ¬ validDateType date_type then
    .error "Invalid date_type. Valid options: \"date\", \"date_ref\""
  else
    match resolveBound (colHeadRaw data date_type) begin? with
    | .error m => .error m
    | .ok b =>
      match resolveBound (colLastRaw data date_type) end? with
      | .error m => .error m
      | .ok e =>
        if dateGuardFires b e then
          .error "Invalid begin_date, end_date: has to be datetime.datetime object"
        else
          match b, e with
          | .dt bb, .dt ee =>
            let blands := uniqueSorted strLt (data.map (·.bundesland))
            let dates := uniqueSorted (fun a b => decide (a < b)) (data.map (getCol date_type))
            let rows := dates.map (fun d => (d, blands.map (cellSum data date_type variable_ d)))
            .ok ⟨blands,
              cumsumRows (List.replicate blands.length 0)
                (rows.filter (fun p => decide (bb ≤ p.1) && decide (p.1 ≤ ee)))⟩
          | _, _ => .error "TypeError: cannot slice a DatetimeIndex with these labels"

/-! ### JHU adapter

After `__to_iso`, each metric table is wide and transposed: the row index
is the list of parsed date columns, and each column is keyed by a
`(country, state)` pair. -/

/-- One JHU metric table after `__to_iso`: the date row index and the
`(country, state)`-keyed columns of cumulative counts. -/
structure JHUFrame where
  dates : List Int
  cols : List ((String × String) × List Int)

/-- JHU adapter state: the three metric tables. -/
structure JHUState where
  confirmed : JHUFrame
  deaths : JHUFrame
  recovered : JHUFrame

/-- Row sums `df.sum(axis=1, skipna=True)`: one value per date, summing
across all columns at that row position. -/
def sumAxis1Aux (cols : List ((String × String) × List Int)) :
    List Int → Nat → List (PyVal × Int)
  | [], _ => []
  | d :: rest, i =>
    (.dt d, (cols.map (fun c => c.2.getD i 0)).sum) :: sumAxis1Aux cols rest (i + 1)

/-- Date-indexed series of row sums across all columns. -/
def sumAxis1 (f : JHUFrame) : List (PyVal × Int) :=
  sumAxis1Aux f.cols f.dates 0

/-- Column sums `df.sum()` (default `axis=0`): one value per
`(country, state)` column, summing over every date — the series is
indexed by the column keys, not by date. -/
def sumAxis0 (f : JHUFrame) : List (PyVal × Int) :=
  f.cols.map (fun c => (.pair c.1.1 c.1.2, c.2.sum))

/-- Single-column series `df[(country, state)]`. -/
def colSeries (dates : List Int) (vals : List Int) : List (PyVal × Int) :=
  List.zipWith (fun d v => (PyVal.dt d, v)) dates vals

/-- Comparison pandas performs between a slice endpoint and an index
label; `none` when the two are incomparable (pandas raises). -/
def pyLe : PyVal → PyVal → Option Bool
  | .dt a, .dt b => some (decide (a ≤ b))
  | .pair a b, .pair c d => some (strLt a c || (a == c && strLe b d))
  | _, _ => none

/-- Label slice `df[begin:end]`: keep the labels between the endpoints;
if any label cannot be compared with an endpoint (for instance a string
endpoint that does not parse against a `DatetimeIndex`), pandas raises. -/
def sliceByLabel (b e : PyVal) : List (PyVal × Int) →
    Except String (List (PyVal × Int))
  | [] => .ok []
  | p :: rest =>
    match pyLe b p.1, pyLe p.1 e with
    | some x, some y =>
      match sliceByLabel b e rest with
      | .ok out => .ok (if x && y then p :: out else out)
      | .error m => .error m
    | _, _ => .error "TypeError: cannot compare slice labels with the series index"

/-- Resolve an optional date argument against an optional default label;
a missing default (empty index) is pandas `IndexError`. -/
def resolveBoundPy (default? : Option PyVal) (given? : Option PyVal) : Except String PyVal :=
  match given? with
  | some b => .ok b
  | none =>
    match default? with
    | some d => .ok d
    | none => .error "IndexError: index 0 is out of bounds for axis 0 with size 0"

/-- Model of `JHU.filter_date(df, begin_date, end_date)`: default missing
endpoints to `df.index[0]` / `df.index[-1]`, run the (buggy)
datetime-instance guard, then slice `df[begin_date:end_date]`. -/
def jhuFilterDate (df : List (PyVal × Int)) (begin? end? : Option PyVal) :
    Except String (List (PyVal × Int)) :=
  match resolveBoundPy (df.map (·.1)).head? begin? with
  | .error m => .error m
  | .ok b =>
    match resolveBoundPy (df.map (·.1)).getLast? end? with
    | .error m => .error m
    | .ok e =>
      if dateGuardFires b e then
        .error "Invalid begin_date, end_date: has to be datetime.datetime object"
      else
        sliceByLabel b e df

/-- Coercion of the string sentinel: `if country == "None": country = None`
(likewise for `state`) at the top of `get_confirmed`, `get_deaths` and
`get_recovered`. -/
def coerceNoneString (x : Option String) : Option String :=
  if x = some "None" then none else x

/-- Shared body of `JHU.get_confirmed` and `JHU.get_deaths` on one metric
frame: no country sums all columns per date (`sum(axis=1)`); a country
alone sums that country's columns per date (`df[country].sum(axis=1)`,
`KeyError` when the country is unknown); country and state select the
single column (`df[(country, state)]`, `KeyError` when missing); the
result goes through `filter_date`. -/
def jhuGetCumulative (f : JHUFrame) (country state : Option String)
    (begin? end? : Option PyVal) : Except String (List (PyVal × Int)) :=
  match coerceNoneString country with
  | none => jhuFilterDate (sumAxis1 f) begin? end?
  | some c =>
    match coerceNoneString state with
    | none =>
      if (f.cols.filter (fun col => col.1.1 == c)).isEmpty then .error "KeyError"
      else
        jhuFilterDate (sumAxis1 ⟨f.dates, f.cols.filter (fun col => col.1.1 == c)⟩)
          begin? end?
    | some st =>
      match f.cols.find? (fun col => col.1.1 == c && col.1.2 == st) with
      | none => .error "KeyError"
      | some col => jhuFilterDate (colSeries f.dates col.2) begin? end?

/-- Model of `JHU.get_confirmed`. -/
def jhuGetConfirmed (st : JHUState) (country state : Option String)
    (begin? end? : Option PyVal) : Except String (List (PyVal × Int)) :=
  jhuGetCumulative st.confirmed country state begin? end?

/-- Model of `JHU.get_deaths`. -/
def jhuGetDeaths (st : JHUState) (country state : Option String)
    (begin? end? : Option PyVal) : Except String (List (PyVal × Int)) :=
  jhuGetCumulative st.deaths country state begin? end?

/-- Model of `JHU.get_recovered`.  Unlike `get_confirmed`/`get_deaths`,
the no-country branch is `self.recovered.sum()` — the default `axis=0`
column sum, a series indexed by `(country, state)` keys — and the other
branches use `.loc[country]` / `.loc[(country, state)]`, which index
ROWS; against the datetime row index both raise `KeyError`. -/
def jhuGetRecovered (st : JHUState) (country _state : Option String)
    (begin? end? : Option PyVal) : Except String (List (PyVal × Int)) :=
  match coerceNoneString country with
  | none => jhuFilterDate (sumAxis0 st.recovered) begin? end?
  | some _ => .error "KeyError"

/-- Model of `JHU.get_new_confirmed`: the cumulative accessor followed by
the diff/drop/astype one-liner. -/
def jhuGetNewConfirmed (st : JHUState) (country state : Option String)
    (begin? end? : Option PyVal) : Except String (List (PyVal × Int)) :=
  jhuGetConfirmed st country state begin? end? >>= pandasNewSeries

/-- Model of `JHU.get_new_deaths`. -/
def jhuGetNewDeaths (st : JHUState) (country state : Option String)
    (begin? end? : Option PyVal) : Except String (List (PyVal × Int)) :=
  jhuGetDeaths st country state begin? end? >>= pandasNewSeries

/-- Model of `JHU.get_new_recovered`. -/
def jhuGetNewRecovered (st : JHUState) (country state : Option String)
    (begin? end? : Option PyVal) : Except String (List (PyVal × Int)) :=
  jhuGetRecovered st country state begin? end? >>= pandasNewSeries

/-! ### JHU download with local fallback -/

/-- Parsed CSV content, as returned by `pd.read_csv`. -/
abbrev CsvTable := List (List String)

/-- Model of `JHU.__download_from_source(url, fallback=None)`: try
`pd.read_csv(url)`; on any exception, print a notice and read
`this_dir + "/../data/" + fallback`.  When `fallback` is `None` (the
default), that string concatenation itself raises
`TypeError: can only concatenate str (not "NoneType") to str`. -/
def jhuDownloadFromSource (fetch : Except String CsvTable) (fallback : Option String)
    (localData : String → CsvTable) : Except String CsvTable :=
  match fetch with
  | .ok t => .ok t
  | .error _ =>
    match fallback with
    | some name => .ok (localData name)
    | none => .error "TypeError: can only concatenate str (not \"NoneType\") to str"

/-- Model of `JHU.download_confirmed`: calls `__download_from_source`
with the URL only — no fallback argument is passed. -/
def jhuDownloadConfirmed (fetch : Except String CsvTable) (localData : String → CsvTable) :
    Except String CsvTable :=
  jhuDownloadFromSource fetch none localData

/-- Model of `JHU.download_deaths`: likewise passes no fallback. -/
def jhuDownloadDeaths (fetch : Except String CsvTable) (localData : String → CsvTable) :
    Except String CsvTable :=
  jhuDownloadFromSource fetch none localData

/-- Model of `JHU.download_recovered`: likewise passes no fallback. -/
def jhuDownloadRecovered (fetch : Except String CsvTable) (localData : String → CsvTable) :
    Except String CsvTable :=
  jhuDownloadFromSource fetch none localData

/-! ### Concrete fixtures used by witnesses and counterexamples -/

/-- Two-record RKI state with a negative correction record on the second
day (the source never validates the per-record counts, and the live RKI
feed does contain negative correction records). -/
def cexData : List Record :=
  [⟨"Sachsen", "LK A", 5, 0, 0, 0, 0⟩, ⟨"Sachsen", "LK A", -3, 0, 0, 1, 1⟩]

/-- Two-record RKI state with non-negative counts. -/
def okData : List Record :=
  [⟨"Sachsen", "LK A", 5, 0, 0, 0, 0⟩, ⟨"Sachsen", "LK A", 2, 0, 0, 1, 1⟩]

/-- Two-date, two-region JHU metric table. -/
def exFrame : JHUFrame := ⟨[100, 101], [(("A", ""), [1, 2]), (("B", ""), [3, 4])]⟩

/-- JHU adapter state holding `exFrame` for each metric. -/
def exJHU : JHUState := ⟨exFrame, exFrame, exFrame⟩

/-! ### Structural lemmas about the grouped cumulative series -/

theorem mem_insertAdd_fst (d v : Int) :
    ∀ (l : List (Int × Int)), ∀ x ∈ insertAdd d v l, x.1 = d ∨ x.1 ∈ l.map Prod.fst
  | [], x, hx => by
    simp only [insertAdd, List.mem_singleton] at hx
    simp [hx]
  | (d0, v0) :: rest, x, hx => by
    simp only [insertAdd] at hx
    split at hx
    · rw [List.mem_cons, List.mem_cons] at hx
      rcases hx with rfl | rfl | hx
      · simp
      · simp
      · simp only [List.map_cons, List.mem_cons]
        right; right; exact List.mem_map_of_mem Prod.fst hx
    · split at hx
      · rw [List.mem_cons] at hx
        rcases hx with rfl | hx
        · simp
        · simp only [List.map_cons, List.mem_cons]
          right; right; exact List.mem_map_of_mem Prod.fst hx
      · rw [List.mem_cons] at hx
        rcases hx with rfl | hx
        · simp
        · rcases mem_insertAdd_fst d v rest x hx with h | h
          · simp [h]
          · simp only [List.map_cons, List.mem_cons]
            right; right; exact h

theorem insertAdd_pairwise (d v : Int) :
    ∀ (l : List (Int × Int)), l.Pairwise (fun a b => a.1 < b.1) →
      (insertAdd d v l).Pairwise (fun a b => a.1 < b.1)
  | [], _ => by simp [insertAdd]
  | (d0, v0) :: rest, h => by
    rw [List.pairwise_cons] at h
    obtain ⟨h1, h2⟩ := h
    simp only [insertAdd]
    split
    · rename_i hlt
      refine List.Pairwise.cons ?_ (List.Pairwise.cons h1 h2)
      intro x hx
      rw [List.mem_cons] at hx
      rcases hx with rfl | hx
      · exact hlt
      · exact lt_trans hlt (h1 x hx)
    · split
      · rename_i hne heq
        subst heq
        exact List.Pairwise.cons h1 h2
      · rename_i hge hne
        refine List.Pairwise.cons ?_ (insertAdd_pairwise d v rest h2)
        intro x hx
        rcases mem_insertAdd_fst d v rest x hx with h | h
        · rw [h]; omega
        · rw [List.mem_map] at h
          obtain ⟨y, hy, hxy⟩ := h
          rw [← hxy]
          exact h1 y hy

theorem groupbySum_pairwise (key val : Record → Int) :
    ∀ (l : List Record), (groupbySum key val l).Pairwise (fun a b => a.1 < b.1)
  | [] => by simp [groupbySum]
  | r :: rest => by
    simp only [groupbySum]
    exact insertAdd_pairwise _ _ _ (groupbySum_pairwise key val rest)

theorem mem_insertAdd_nonneg (d v : Int) (hv : 0 ≤ v) :
    ∀ (l : List (Int × Int)), (∀ p ∈ l, 0 ≤ p.2) → ∀ p ∈ insertAdd d v l, 0 ≤ p.2
  | [], _, p, hp => by
    simp only [insertAdd, List.mem_singleton] at hp
    simp [hp, hv]
  | (d0, v0) :: rest, h, p, hp => by
    have h0 : 0 ≤ v0 := h (d0, v0) (by simp)
    simp only [insertAdd] at hp
    split at hp
    · rw [List.mem_cons, List.mem_cons] at hp
      rcases hp with rfl | rfl | hp
      · exact hv
      · exact h0
      · exact h p (by simp [hp])
    · split at hp
      · rw [List.mem_cons] at hp
        rcases hp with rfl | hp
        · simp; omega
        · exact h p (by simp [hp])
      · rw [List.mem_cons] at hp
        rcases hp with rfl | hp
        · exact h0
        · exact mem_insertAdd_nonneg d v hv rest (fun q hq => h q (by simp [hq])) p hp

theorem groupbySum_nonneg (key val : Record → Int) :
    ∀ (l : List Record), (∀ r ∈ l, 0 ≤ val r) → ∀ p ∈ groupbySum key val l, 0 ≤ p.2
  | [], _, p, hp => by simp [groupbySum] at hp
  | r :: rest, h, p, hp => by
    simp only [groupbySum] at hp
    exact mem_insertAdd_nonneg (key r) (val r) (h r (by simp))
      (groupbySum key val rest)
      (groupbySum_nonneg key val rest (fun q hq => h q (by simp [hq]))) p hp

theorem cumsum_map_fst (acc : Int) :
    ∀ (l : List (Int × Int)), (cumsum acc l).map Prod.fst = l.map Prod.fst
  | [] => rfl
  | (d, v) :: rest => by simp [cumsum, cumsum_map_fst]

theorem cumsum_ge (acc : Int) :
    ∀ (l : List (Int × Int)), (∀ p ∈ l, 0 ≤ p.2) → ∀ p ∈ cumsum acc l, acc ≤ p.2
  | [], _, p, hp => by simp [cumsum] at hp
  | (d, v) :: rest, h, p, hp => by
    have hv : 0 ≤ v := h (d, v) (by simp)
    simp only [cumsum, List.mem_cons] at hp
    rcases hp with rfl | hp
    · simpa using hv
    · have := cumsum_ge (acc + v) rest (fun q hq => h q (by simp [hq])) p hp
      omega

theorem cumsum_values_mono (acc : Int) :
    ∀ (l : List (Int × Int)), (∀ p ∈ l, 0 ≤ p.2) →
      (cumsum acc l).Pairwise (fun a b => a.2 ≤ b.2)
  | [], _ => by simp [cumsum]
  | (d, v) :: rest, h => by
    simp only [cumsum]
    refine List.Pairwise.cons ?_
      (cumsum_values_mono (acc + v) rest (fun q hq => h q (by simp [hq])))
    intro q hq
    have := cumsum_ge (acc + v) rest (fun q hq => h q (by simp [hq])) q hq
    omega

theorem cumsum_keys_pairwise (acc : Int) (l : List (Int × Int))
    (h : l.Pairwise (fun a b => a.1 < b.1)) :
    (cumsum acc l).Pairwise (fun a b => a.1 < b.1) := by
  have h2 : ((cumsum acc l).map Prod.fst).Pairwise (· < ·) := by
    rw [cumsum_map_fst]
    exact List.pairwise_map.mpr h
  exact List.pairwise_map.mp h2

theorem mem_rkiSelectRows {data : List Record} {level : Option String}
    {value? : Option String} {r : Record} (h : r ∈ rkiSelectRows data level value?) :
    r ∈ data := by
  cases level with
  | none => exact h
  | some l => exact (List.mem_filter.1 h).1

theorem rkiSeries_keys_sorted (data : List Record) (variable_ date_type : String)
    (level : Option String) (value? : Option String) :
    (rkiSeries data variable_ date_type level value?).Pairwise (fun a b => a.1 < b.1) := by
  unfold rkiSeries
  exact cumsum_keys_pairwise 0 _ (groupbySum_pairwise _ _ _)

theorem rkiSeries_pairwise_of_nonneg (data : List Record) (variable_ date_type : String)
    (level : Option String) (value? : Option String)
    (hnn : ∀ r ∈ data, 0 ≤ getMetric variable_ r) :
    (rkiSeries data variable_ date_type level value?).Pairwise
      (fun a b => a.1 < b.1 ∧ a.2 ≤ b.2) := by
  have hkeys := rkiSeries_keys_sorted data variable_ date_type level value?
  have hvals : (rkiSeries data variable_ date_type level value?).Pairwise
      (fun a b => a.2 ≤ b.2) := by
    unfold rkiSeries
    refine cumsum_values_mono 0 _ ?_
    exact groupbySum_nonneg _ _ _ (fun r hr => hnn r (mem_rkiSelectRows hr))
  exact hkeys.and hvals

theorem rkiFilter_ok_sublist {data : List Record} {begin? end? : Option PyVal}
    {variable_ date_type : String} {level : Option String} {value? : Option String}
    {s : List (Int × Int)}
    (h : rkiFilter data begin? end? variable_ date_type level value? = .ok s) :
    s.Sublist (rkiSeries data variable_ date_type level value?) := by
  unfold rkiFilter at h
  split at h
  · exact absurd h (by simp)
  · split at h
    · exact absurd h (by simp)
    · split at h
      · exact absurd h (by simp)
      · split at h
        · exact absurd h (by simp)
        · split at h
          · exact absurd h (by simp)
          · split at h
            · exact absurd h (by simp)
            · unfold sliceRKI at h
              split at h
              · rw [Except.ok.injEq] at h
                rw [← h]
                exact List.filter_sublist _
              · exact absurd h (by simp)

/-- C1 (amended): for every populated RKI adapter state in which every
record's selected metric count is non-negative, every region selector and
every valid metric and date kind, a series returned by `RKI.filter` is
strictly ascending in date with non-decreasing cumulative values.  The
non-negativity proviso is forced: the source never validates the
per-record counts, and a negative correction record makes the running
cumulative sum decrease. -/
theorem rki_filter_monotone_of_nonneg (data : List Record) (begin? end? : Option PyVal)
    (variable_ date_type : String) (level : Option String) (value? : Option String)
    (s : List (Int × Int))
    (hok : rkiFilter data begin? end? variable_ date_type level value? = .ok s)
    (hnn : ∀ r ∈ data, 0 ≤ getMetric variable_ r) :
    s.Pairwise (fun a b => a.1 < b.1 ∧ a.2 ≤ b.2) :=
  List.Pairwise.sublist (rkiFilter_ok_sublist hok)
    (rkiSeries_pairwise_of_nonneg data variable_ date_type level value? hnn)

/-- Witness for C1: on a concrete two-record non-negative state the
returned series is `[(0, 5), (1, 7)]` and the monotonicity theorem applies. -/
theorem rki_filter_monotone_of_nonneg_witness :
    ([((0 : Int), (5 : Int)), (1, 7)]).Pairwise (fun a b => a.1 < b.1 ∧ a.2 ≤ b.2) :=
  rki_filter_monotone_of_nonneg okData none none "AnzahlFall" "date" none none
    [(0, 5), (1, 7)] rfl (by decide)

/-- Counterexample for C1 as stated: on a populated state holding a
negative correction record, `RKI.filter` returns the series
`[(0, 5), (1, 2)]`, which decreases from date 0 to date 1. -/
theorem rki_filter_monotone_cex :
    rkiFilter cexData none none "AnzahlFall" "date" none none = .ok [(0, 5), (1, 2)] ∧
    ¬ ((5 : Int) ≤ 2) :=
  ⟨rfl, by decide⟩

/-- C2: an invalid `variable`, `level` or `date_type` argument makes
`RKI.filter` raise the corresponding descriptive `ValueError`, with a
result independent of the adapter data (so before any data access) and
never silently replaced by a default. -/
theorem rki_filter_validation (data : List Record) (begin? end? : Option PyVal)
    (variable_ date_type : String) (level : Option String) (value? : Option String) :
    (validVariable variable_ = false →
      rkiFilter data begin? end? variable_ date_type level value?
        = .error "Invalid variable. Valid options: \"AnzahlFall\", \"AnzahlTodesfall\", \"AnzahlGenesen\"") ∧
    (validVariable variable_ = true → validLevel level = false →
      rkiFilter data begin? end? variable_ date_type level value?
        = .error "Invalid level. Valid options: \"Landkreis\", \"Bundesland\", None") ∧
    (validVariable variable_ = true → validLevel level = true →
      validDateType date_type = false →
      rkiFilter data begin? end? variable_ date_type level value?
        = .error "Invalid date_type. Valid options: \"date\", \"date_ref\"") := by
  refine ⟨fun h1 => ?_, fun h1 h2 => ?_, fun h1 h2 h3 => ?_⟩
  · simp [rkiFilter, h1]
  · simp [rkiFilter, h1, h2]
  · simp [rkiFilter, h1, h2, h3]

/-- Witness for C2: the invalid metric name `"foo"` raises the
descriptive `ValueError` on an empty adapter state. -/
theorem rki_filter_validation_witness :
    rkiFilter [] none none "foo" "date" none none
      = .error "Invalid variable. Valid options: \"AnzahlFall\", \"AnzahlTodesfall\", \"AnzahlGenesen\"" :=
  (rki_filter_validation [] none none "foo" "date" none none).1 rfl

/-- C3: the mis-parenthesised guard
`not isinstance(begin_date, ...) and isinstance(end_date, ...)` does not
fire when both endpoints are non-datetime values, so with two string
endpoints none of `JHU.filter_date`, `RKI.filter` and
`RKI.filter_all_bundesland` raises the advertised descriptive
`ValueError`; execution proceeds past validation into pandas slicing,
which fails with a different error from inside the data access. -/
theorem date_guard_skipped_on_two_strings :
    dateGuardFires (.pystr "a") (.pystr "b") = false ∧
    rkiFilter cexData (some (.pystr "a")) (some (.pystr "b")) "AnzahlFall" "date" none none
      = .error "TypeError: cannot slice a DatetimeIndex with these labels" ∧
    jhuFilterDate (sumAxis1 exFrame) (some (.pystr "a")) (some (.pystr "b"))
      = .error "TypeError: cannot compare slice labels with the series index" ∧
    rkiFilterAllBundesland cexData (some (.pystr "a")) (some (.pystr "b")) "AnzahlFall" "date"
      = .error "TypeError: cannot slice a DatetimeIndex with these labels" :=
  ⟨rfl, rfl, rfl, rfl⟩

/-- C5: the JHU download methods call `__download_from_source` without a
fallback file name, so on a fetch failure the fallback path concatenates
a string with `None` and raises `TypeError` instead of returning the
bundled fallback table; the fallback mechanism itself works only when a
file name is supplied. -/
theorem jhu_download_no_fallback (msg : String) (localData : String → CsvTable) :
    jhuDownloadConfirmed (.error msg) localData
      = .error "TypeError: can only concatenate str (not \"NoneType\") to str" ∧
    jhuDownloadDeaths (.error msg) localData
      = .error "TypeError: can only concatenate str (not \"NoneType\") to str" ∧
    jhuDownloadRecovered (.error msg) localData
      = .error "TypeError: can only concatenate str (not \"NoneType\") to str" ∧
    (∀ name, jhuDownloadFromSource (.error msg) (some name) localData
      = .ok (localData name)) :=
  ⟨rfl, rfl, rfl, fun _ => rfl⟩

/-! ### Lemmas about the daily-new first difference -/

theorem diffPairs_eq_zipWith {α : Type} :
    ∀ (s : List (α × Int)),
      diffPairs s = List.zipWith (fun a b => (b.1, b.2 - a.2)) s s.tail
  | [] => rfl
  | [_] => rfl
  | a :: b :: rest => by
    simp only [diffPairs, List.tail_cons, List.zipWith_cons_cons]
    rw [diffPairs_eq_zipWith (b :: rest)]
    rfl

theorem mem_diffPairs_fst {α : Type} :
    ∀ (s : List (α × Int)), ∀ p ∈ diffPairs s, p.1 ∈ s.tail.map Prod.fst
  | [], p, hp => by simp [diffPairs] at hp
  | [_], p, hp => by simp [diffPairs] at hp
  | a :: b :: rest, p, hp => by
    simp only [diffPairs, List.mem_cons] at hp
    rcases hp with rfl | hp
    · simp
    · have h := mem_diffPairs_fst (b :: rest) p hp
      simp only [List.tail_cons, List.map_cons, List.mem_cons] at h ⊢
      exact Or.inr h

theorem pandasNewSeries_eq_diff {α : Type} [DecidableEq α] (s : List (α × Int))
    (hne : s ≠ []) (hnd : (s.map Prod.fst).Nodup) :
    pandasNewSeries s = .ok (List.zipWith (fun a b => (b.1, b.2 - a.2)) s s.tail) := by
  match s, hne with
  | x :: t, _ =>
    simp only [pandasNewSeries]
    rw [List.filter_eq_self.2, diffPairs_eq_zipWith]
    intro p hp
    have hmem := mem_diffPairs_fst (x :: t) p hp
    simp only [List.tail_cons] at hmem
    simp only [List.map_cons, List.nodup_cons] at hnd
    have hne2 : p.1 ≠ x.1 := fun he => hnd.1 (he ▸ hmem)
    simpa using hne2

theorem new_of_cum_aux {α : Type} [DecidableEq α]
    {cum : Except String (List (α × Int))} {s : List (α × Int)}
    (h : cum = .ok s) (hnd : (s.map Prod.fst).Nodup) (hne : s ≠ []) :
    cum >>= pandasNewSeries
      = .ok (List.zipWith (fun a b => (b.1, b.2 - a.2)) s s.tail) ∧
    (s.length = 1 → cum >>= pandasNewSeries = .ok []) := by
  subst h
  have heq : (Except.ok s : Except String (List (α × Int))) >>= pandasNewSeries
      = pandasNewSeries s := rfl
  refine ⟨by rw [heq]; exact pandasNewSeries_eq_diff s hne hnd, fun hlen => ?_⟩
  rw [heq, pandasNewSeries_eq_diff s hne hnd]
  match s, hlen with
  | [_], _ => rfl

theorem rkiFilter_ok_labels_nodup {data : List Record} {begin? end? : Option PyVal}
    {variable_ date_type : String} {level : Option String} {value? : Option String}
    {s : List (Int × Int)}
    (h : rkiFilter data begin? end? variable_ date_type level value? = .ok s) :
    (s.map Prod.fst).Nodup := by
  have hp : s.Pairwise (fun a b => a.1 < b.1) :=
    List.Pairwise.sublist (rkiFilter_ok_sublist h)
      (rkiSeries_keys_sorted data variable_ date_type level value?)
  exact (List.pairwise_map.mpr hp).imp (fun hlt => ne_of_lt hlt)

theorem sliceByLabel_ok_sublist {b e : PyVal} :
    ∀ {s out : List (PyVal × Int)}, sliceByLabel b e s = .ok out → out.Sublist s
  | [], out, h => by
    simp only [sliceByLabel, Except.ok.injEq] at h
    rw [← h]
  | p :: rest, out, h => by
    simp only [sliceByLabel] at h
    split at h
    · split at h
      · rw [Except.ok.injEq] at h
        rw [← h]
        split
        · exact (sliceByLabel_ok_sublist (by assumption)).cons₂ p
        · exact (sliceByLabel_ok_sublist (by assumption)).cons p
      · exact absurd h (by simp)
    · exact absurd h (by simp)

theorem jhuFilterDate_ok_sublist {df : List (PyVal × Int)} {begin? end? : Option PyVal}
    {out : List (PyVal × Int)} (h : jhuFilterDate df begin? end? = .ok out) :
    out.Sublist df := by
  unfold jhuFilterDate at h
  split at h
  · exact absurd h (by simp)
  · split at h
    · exact absurd h (by simp)
    · split at h
      · exact absurd h (by simp)
      · exact sliceByLabel_ok_sublist h

theorem sumAxis1Aux_map_fst (cols : List ((String × String) × List Int)) :
    ∀ (dates : List Int) (i : Nat),
      (sumAxis1Aux cols dates i).map Prod.fst = dates.map PyVal.dt
  | [], _ => rfl
  | d :: rest, i => by
    simp [sumAxis1Aux, sumAxis1Aux_map_fst cols rest (i + 1)]

theorem colSeries_map_fst_sublist :
    ∀ (dates vals : List Int),
      ((colSeries dates vals).map Prod.fst).Sublist (dates.map PyVal.dt)
  | [], _ => by simp [colSeries]
  | _ :: _, [] => by simp [colSeries]
  | d :: drest, v :: vrest => by
    simp only [colSeries, List.zipWith_cons_cons, List.map_cons]
    exact (colSeries_map_fst_sublist drest vrest).cons₂ (PyVal.dt d)

theorem sumAxis1_map_fst (f : JHUFrame) :
    (sumAxis1 f).map Prod.fst = f.dates.map PyVal.dt :=
  sumAxis1Aux_map_fst f.cols f.dates 0

theorem pyValDt_injective : Function.Injective PyVal.dt := by
  intro a b h
  injection h

theorem jhuGetCumulative_ok_labels_nodup {f : JHUFrame} {country state : Option String}
    {begin? end? : Option PyVal} {s : List (PyVal × Int)}
    (h : jhuGetCumulative f country state begin? end? = .ok s)
    (hd : f.dates.Nodup) : (s.map Prod.fst).Nodup := by
  have hdt : (f.dates.map PyVal.dt).Nodup := hd.map pyValDt_injective
  unfold jhuGetCumulative at h
  split at h
  · have hsub := (jhuFilterDate_ok_sublist h).map Prod.fst
    rw [sumAxis1_map_fst] at hsub
    exact hdt.sublist hsub
  · split at h
    · split at h
      · exact absurd h (by simp)
      · have hsub := (jhuFilterDate_ok_sublist h).map Prod.fst
        rw [sumAxis1_map_fst] at hsub
        exact hdt.sublist hsub
    · split at h
      · exact absurd h (by simp)
      · have hsub := (jhuFilterDate_ok_sublist h).map Prod.fst
        exact hdt.sublist (hsub.trans (colSeries_map_fst_sublist _ _))

theorem pairKey_injective :
    Function.Injective (fun k : String × String => PyVal.pair k.1 k.2) := by
  intro a b h
  injection h with h1 h2
  exact Prod.ext h1 h2

theorem sumAxis0_map_fst (f : JHUFrame) :
    (sumAxis0 f).map Prod.fst
      = (f.cols.map (fun c => c.1)).map (fun k => PyVal.pair k.1 k.2) := by
  simp [sumAxis0]

theorem jhuGetRecovered_ok_labels_nodup {st : JHUState} {country state : Option String}
    {begin? end? : Option PyVal} {s : List (PyVal × Int)}
    (h : jhuGetRecovered st country state begin? end? = .ok s)
    (hk : (st.recovered.cols.map (fun c => c.1)).Nodup) : (s.map Prod.fst).Nodup := by
  unfold jhuGetRecovered at h
  split at h
  · have hsub := (jhuFilterDate_ok_sublist h).map Prod.fst
    rw [sumAxis0_map_fst] at hsub
    exact (hk.map pairKey_injective).sublist hsub
  · exact absurd h (by simp)

/-- C4: every daily-new accessor equals the first difference of its
cumulative accessor's series between consecutive dates, with the first
(undefined-delta) row dropped; a single-row cumulative series yields the
empty series, not an error.  (The label-uniqueness hypotheses on the JHU
frames state that the CSV date columns and region columns are unique, as
they are in the source data; the RKI side needs no such hypothesis because
`groupby` makes the dates unique.) -/
theorem daily_new_first_difference
    (data : List Record) (bl lk : Option String) (begin? end? : Option PyVal)
    (dtype : String) (st : JHUState) (country stat : Option String)
    (hd1 : st.confirmed.dates.Nodup) (hd2 : st.deaths.dates.Nodup)
    (hk3 : (st.recovered.cols.map (fun c => c.1)).Nodup) :
    (∀ s, rkiGetConfirmed data bl lk begin? end? dtype = .ok s → s ≠ [] →
      rkiGetNewConfirmed data bl lk begin? end? dtype
        = .ok (List.zipWith (fun a b => (b.1, b.2 - a.2)) s s.tail) ∧
      (s.length = 1 → rkiGetNewConfirmed data bl lk begin? end? dtype = .ok [])) ∧
    (∀ s, rkiGetDeaths data bl lk begin? end? dtype = .ok s → s ≠ [] →
      rkiGetNewDeaths data bl lk begin? end? dtype
        = .ok (List.zipWith (fun a b => (b.1, b.2 - a.2)) s s.tail) ∧
      (s.length = 1 → rkiGetNewDeaths data bl lk begin? end? dtype = .ok [])) ∧
    (∀ s, rkiGetRecovered data bl lk begin? end? dtype = .ok s → s ≠ [] →
      rkiGetNewRecovered data bl lk begin? end? dtype
        = .ok (List.zipWith (fun a b => (b.1, b.2 - a.2)) s s.tail) ∧
      (s.length = 1 → rkiGetNewRecovered data bl lk begin? end? dtype = .ok [])) ∧
    (∀ s, jhuGetConfirmed st country stat begin? end? = .ok s → s ≠ [] →
      jhuGetNewConfirmed st country stat begin? end?
        = .ok (List.zipWith (fun a b => (b.1, b.2 - a.2)) s s.tail) ∧
      (s.length = 1 → jhuGetNewConfirmed st country stat begin? end? = .ok [])) ∧
    (∀ s, jhuGetDeaths st country stat begin? end? = .ok s → s ≠ [] →
      jhuGetNewDeaths st country stat begin? end?
        = .ok (List.zipWith (fun a b => (b.1, b.2 - a.2)) s s.tail) ∧
      (s.length = 1 → jhuGetNewDeaths st country stat begin? end? = .ok [])) ∧
    (∀ s, jhuGetRecovered st country stat begin? end? = .ok s → s ≠ [] →
      jhuGetNewRecovered st country stat begin? end?
        = .ok (List.zipWith (fun a b => (b.1, b.2 - a.2)) s s.tail) ∧
      (s.length = 1 → jhuGetNewRecovered st country stat begin? end? = .ok [])) := by
  refine ⟨fun s h hne => ?_, fun s h hne => ?_, fun s h hne => ?_,
    fun s h hne => ?_, fun s h hne => ?_, fun s h hne => ?_⟩
  · exact new_of_cum_aux h (rkiFilter_ok_labels_nodup h) hne
  · exact new_of_cum_aux h (rkiFilter_ok_labels_nodup h) hne
  · exact new_of_cum_aux h (rkiFilter_ok_labels_nodup h) hne
  · exact new_of_cum_aux h (jhuGetCumulative_ok_labels_nodup h hd1) hne
  · exact new_of_cum_aux h (jhuGetCumulative_ok_labels_nodup h hd2) hne
  · exact new_of_cum_aux h (jhuGetRecovered_ok_labels_nodup h hk3) hne

/-- Witness for C4: on the concrete two-record state the cumulative
confirmed series is `[(0, 5), (1, 7)]` and the daily-new accessor returns
its first difference `[(1, 2)]`. -/
theorem daily_new_first_difference_witness :
    rkiGetNewConfirmed okData none none none none "date" = .ok [(1, 2)] := by
  have h := ((daily_new_first_difference okData none none none none "date" exJHU none none
      (by decide) (by decide) (by decide)).1 [(0, 5), (1, 7)] rfl (by decide)).1
  exact h

/-! ### Lemmas about the RKI download retry loop -/

theorem fetchRegionAux_error_msg (q : Nat → QueryOutcome) (try_max c : Nat) (m : String)
    (h : fetchRegionAux q try_max c = .error m) :
    m = "Maximum limit of tries exceeded." := by
  unfold fetchRegionAux at h
  split at h
  · split at h
    · exact fetchRegionAux_error_msg q try_max (c + 1) m h
    · split at h
      · exact fetchRegionAux_error_msg q try_max (c + 1) m h
      · exact absurd h (by simp)
  · rw [Except.error.injEq] at h
    exact h.symm
termination_by try_max - c
decreasing_by all_goals omega

theorem fetchRegionAux_error_of_bad (q : Nat → QueryOutcome) (try_max c : Nat)
    (hbad : ∀ i, c ≤ i → i < try_max → isBadAttempt (q i) = true) :
    fetchRegionAux q try_max c = .error "Maximum limit of tries exceeded." := by
  unfold fetchRegionAux
  split
  · rename_i hlt
    have hb := hbad c (le_refl c) hlt
    split
    · exact fetchRegionAux_error_of_bad q try_max (c + 1)
        (fun i h1 h2 => hbad i (by omega) h2)
    · rename_i feats heq
      have hlen : feats.length > 5000 := by
        rw [heq] at hb
        simpa [isBadAttempt] using hb
      rw [if_pos hlen]
      exact fetchRegionAux_error_of_bad q try_max (c + 1)
        (fun i h1 h2 => hbad i (by omega) h2)
  · rfl
termination_by try_max - c
decreasing_by all_goals omega

theorem fetchRegionAux_congr (q q' : Nat → QueryOutcome) (try_max c : Nat)
    (hagree : ∀ i, c ≤ i → i < try_max → q i = q' i) :
    fetchRegionAux q try_max c = fetchRegionAux q' try_max c := by
  by_cases hlt : c < try_max
  · unfold fetchRegionAux
    simp only [dif_pos hlt]
    rw [show q' c = q c from (hagree c (le_refl c) hlt).symm]
    cases q c with
    | fail =>
      exact fetchRegionAux_congr q q' try_max (c + 1)
        (fun i h1 h2 => hagree i (by omega) h2)
    | ok feats =>
      show (if feats.length > 5000 then fetchRegionAux q try_max (c + 1)
            else .ok feats)
          = (if feats.length > 5000 then fetchRegionAux q' try_max (c + 1)
            else .ok feats)
      by_cases hl : feats.length > 5000
      · rw [if_pos hl, if_pos hl]
        exact fetchRegionAux_congr q q' try_max (c + 1)
          (fun i h1 h2 => hagree i (by omega) h2)
      · rw [if_neg hl, if_neg hl]
  · unfold fetchRegionAux
    simp only [dif_neg hlt]
termination_by try_max - c
decreasing_by all_goals omega

theorem fetchRegion_first_good (q : Nat → QueryOutcome) (try_max : Nat)
    (h1 : 1 ≤ try_max) (hgood : isBadAttempt (q 0) = false) :
    fetchRegion q try_max = .ok (q 0).okData := by
  unfold fetchRegion fetchRegionAux
  rw [dif_pos (by omega : 0 < try_max)]
  cases hq : q 0 with
  | fail => simp [isBadAttempt, hq] at hgood
  | ok feats =>
    have hlen : ¬ feats.length > 5000 := by
      rw [hq] at hgood
      simpa [isBadAttempt] using hgood
    simp [hq, hlen, QueryOutcome.okData]

theorem downloadRegions_error_of_bad_region (query : String → Nat → QueryOutcome)
    (try_max : Nat) (id : String)
    (hbad : ∀ i, i < try_max → isBadAttempt (query id i) = true) :
    ∀ (ids : List String) (acc : List Record), id ∈ ids →
      downloadRegions query try_max acc ids = .error "Maximum limit of tries exceeded."
  | [], _, hmem => absurd hmem (List.not_mem_nil id)
  | id' :: rest, acc, hmem => by
    simp only [downloadRegions]
    rcases List.mem_cons.1 hmem with rfl | hmem'
    · rw [show fetchRegion (query id) try_max
          = .error "Maximum limit of tries exceeded." from
        fetchRegionAux_error_of_bad (query id) try_max 0 (fun i _ h2 => hbad i h2)]
    · cases hf : fetchRegion (query id') try_max with
      | error m =>
        have hm := fetchRegionAux_error_msg (query id') try_max 0 m hf
        simp only [hf, hm]
      | ok feats =>
        simp only [hf]
        exact downloadRegions_error_of_bad_region query try_max id hbad rest _ hmem'

theorem downloadRegions_all_first_good (query : String → Nat → QueryOutcome)
    (try_max : Nat) (h1 : 1 ≤ try_max) :
    ∀ (ids : List String) (acc : List Record),
      (∀ id ∈ ids, isBadAttempt (query id 0) = false) →
      downloadRegions query try_max acc ids
        = .ok (acc ++ ids.flatMap (fun id => ((query id 0).okData).map rawToRecord))
  | [], acc, _ => by simp [downloadRegions]
  | id :: rest, acc, hgood => by
    have hfg := fetchRegion_first_good (query id) try_max h1 (hgood id (by simp))
    simp only [downloadRegions, hfg]
    rw [downloadRegions_all_first_good query try_max h1 rest _
      (fun i hi => hgood i (by simp [hi]))]
    simp [List.flatMap_cons, List.append_assoc]

/-- C6: taking the per-region path, a region whose every attempt up to
`try_max` fails (by exception or by a hit count over the 5000 pagination
ceiling) aborts the whole retrieval with the fatal
`ValueError('Maximum limit of tries exceeded.')`; no partial table is
returned, the `data` attribute is left unassigned, and the retry loop
consults at most the first `try_max` attempts of the oracle. -/
theorem rki_retry_exhaustion (net : RKINet) (st : Option (List Record)) (try_max : Nat)
    (id : String) (hmem : id ∈ net.discovery)
    (hlen : 412 ≤ net.discovery.length)
    (hbad : ∀ i, i < try_max → isBadAttempt (net.query id i) = true) :
    downloadAllAvailableData net try_max = .error "Maximum limit of tries exceeded." ∧
    rkiDownloadStep st net try_max = st ∧
    (∀ q q' : Nat → QueryOutcome, (∀ i, i < try_max → q i = q' i) →
      fetchRegion q try_max = fetchRegion q' try_max) := by
  have herr : downloadAllAvailableData net try_max
      = .error "Maximum limit of tries exceeded." := by
    unfold downloadAllAvailableData
    rw [if_pos hlen]
    exact downloadRegions_error_of_bad_region net.query try_max id hbad
      net.discovery [] hmem
  refine ⟨herr, ?_, ?_⟩
  · unfold rkiDownloadStep
    rw [herr]
  · intro q q' hag
    exact fetchRegionAux_congr q q' try_max 0 (fun i _ h2 => hag i h2)

/-- Witness for C6: with 412 enumerated regions whose every query attempt
fails and `try_max = 1`, the whole retrieval aborts with the fatal error. -/
theorem rki_retry_exhaustion_witness :
    downloadAllAvailableData ⟨List.replicate 412 "1", fun _ _ => .fail, []⟩ 1
      = .error "Maximum limit of tries exceeded." :=
  (rki_retry_exhaustion ⟨List.replicate 412 "1", fun _ _ => .fail, []⟩ none 1 "1"
    (List.mem_replicate.mpr ⟨by omega, rfl⟩) (by rw [List.length_replicate])
    (fun _ _ => rfl)).1

/-- C7: when the discovery query enumerates fewer than 412 region
identifiers, the adapter state comes from the bundled fallback snapshot
and the result does not depend on the per-region query oracle at all (no
per-region retrieval is attempted); with at least 412 identifiers and
responsive queries, the per-region loop contributes records for every
enumerated identifier in order. -/
theorem rki_discovery_threshold (net : RKINet) (try_max : Nat)
    (h1 : 1 ≤ try_max)
    (hgood : ∀ id ∈ net.discovery, isBadAttempt (net.query id 0) = false) :
    (net.discovery.length < 412 →
      downloadAllAvailableData net try_max
        = .ok (net.fallbackRows.map fallbackToRecord) ∧
      (∀ q' : String → Nat → QueryOutcome,
        downloadAllAvailableData ⟨net.discovery, q', net.fallbackRows⟩ try_max
          = .ok (net.fallbackRows.map fallbackToRecord))) ∧
    (412 ≤ net.discovery.length →
      downloadAllAvailableData net try_max
        = .ok (net.discovery.flatMap
            (fun id => ((net.query id 0).okData).map rawToRecord))) := by
  constructor
  · intro hlt
    have hneg : ¬ (412 ≤ net.discovery.length) := by omega
    constructor
    · unfold downloadAllAvailableData
      rw [if_neg hneg]
    · intro q'
      unfold downloadAllAvailableData
      rw [if_neg hneg]
  · intro hge
    unfold downloadAllAvailableData
    rw [if_pos hge]
    rw [downloadRegions_all_first_good net.query try_max h1 net.discovery [] hgood]
    simp

/-- Witness for C7: one enumerated region (fewer than 412) makes the
retrieval return the converted fallback snapshot. -/
theorem rki_discovery_threshold_witness :
    downloadAllAvailableData ⟨["1"], fun _ _ => .ok [], [⟨"BW", "LK", 1, 0, 0, 7, 9⟩]⟩ 1
      = .ok [⟨"BW", "LK", 1, 0, 0, 7, 7⟩] := by
  have h := ((rki_discovery_threshold
      ⟨["1"], fun _ _ => .ok [], [⟨"BW", "LK", 1, 0, 0, 7, 9⟩]⟩ 1
      (by decide) (fun _ _ => rfl)).1 (by decide)).1
  exact h

/-- C8: on a populated two-date two-region state, `JHU.get_confirmed`
with no selector returns the date-indexed sums across regions, but
`JHU.get_recovered` with no selector returns per-region totals indexed by
`(country, state)` keys — none of its labels is a date. -/
theorem jhu_get_recovered_not_date_indexed :
    jhuGetConfirmed exJHU none none none none
      = .ok [(.dt 100, 4), (.dt 101, 6)] ∧
    jhuGetRecovered exJHU none none none none
      = .ok [(.pair "A" "", 3), (.pair "B" "", 7)] ∧
    ([(PyVal.pair "A" "", (3 : Int)), (PyVal.pair "B" "", 7)].all
      (fun p => !isDt p.1)) = true :=
  ⟨rfl, rfl, rfl⟩

theorem groupbySum_key_congr (k1 k2 val : Record → Int) :
    ∀ (l : List Record), (∀ r ∈ l, k1 r = k2 r) →
      groupbySum k1 val l = groupbySum k2 val l
  | [], _ => rfl
  | r :: rest, h => by
    simp only [groupbySum]
    rw [h r (by simp),
      groupbySum_key_congr k1 k2 val rest (fun q hq => h q (by simp [hq]))]

theorem rkiFilter_dateRef_eq_date (data : List Record)
    (hall : ∀ r ∈ data, r.dateRef = r.date)
    (begin? end? : Option PyVal) (variable_ : String)
    (level : Option String) (value? : Option String) :
    rkiFilter data begin? end? variable_ "date_ref" level value?
      = rkiFilter data begin? end? variable_ "date" level value? := by
  have hcol : ∀ r ∈ data, getCol "date_ref" r = getCol "date" r := by
    intro r hr
    simp [getCol, hall r hr]
  have hmap : data.map (getCol "date_ref") = data.map (getCol "date") :=
    List.map_congr_left hcol
  have h1 : colFirstSorted data "date_ref" = colFirstSorted data "date" := by
    unfold colFirstSorted
    rw [hmap]
  have h2 : colLastSorted data "date_ref" = colLastSorted data "date" := by
    unfold colLastSorted
    rw [hmap]
  have h3 : rkiSeries data variable_ "date_ref" level value?
      = rkiSeries data variable_ "date" level value? := by
    unfold rkiSeries
    rw [groupbySum_key_congr (getCol "date_ref") (getCol "date") (getMetric variable_)
      (rkiSelectRows data level value?)
      (fun r hr => hcol r (mem_rkiSelectRows hr))]
  unfold rkiFilter
  rw [h1, h2, h3]
  norm_num [validDateType]

/-- C10: a state populated from the bundled fallback snapshot derives its
`date_ref` column from the same `date` column as the report-date column,
so `RKI.filter` with `date_kind` `'date_ref'` returns exactly the same
series as with `'date'`, for every metric, region selector and date
range. -/
theorem fallback_date_ref_indistinguishable (net : RKINet) (try_max : Nat)
    (data : List Record) (hlt : net.discovery.length < 412)
    (hdl : downloadAllAvailableData net try_max = .ok data)
    (begin? end? : Option PyVal) (variable_ : String)
    (level : Option String) (value? : Option String) :
    rkiFilter data begin? end? variable_ "date_ref" level value?
      = rkiFilter data begin? end? variable_ "date" level value? := by
  have hfb : data = net.fallbackRows.map fallbackToRecord := by
    unfold downloadAllAvailableData at hdl
    rw [if_neg (by omega)] at hdl
    rw [Except.ok.injEq] at hdl
    exact hdl.symm
  apply rkiFilter_dateRef_eq_date
  intro r hr
  rw [hfb] at hr
  obtain ⟨fr, _, rfl⟩ := List.mem_map.1 hr
  rfl

/-- Witness for C10: on the one-row fallback-populated state the two date
kinds give syntactically equal filter results. -/
theorem fallback_date_ref_indistinguishable_witness :
    rkiFilter [⟨"BW", "LK", 1, 0, 0, 7, 7⟩] none none "AnzahlFall" "date_ref" none none
      = rkiFilter [⟨"BW", "LK", 1, 0, 0, 7, 7⟩] none none "AnzahlFall" "date" none none :=
  fallback_date_ref_indistinguishable
    ⟨["1"], fun _ _ => .fail, [⟨"BW", "LK", 1, 0, 0, 7, 9⟩]⟩ 1
    [⟨"BW", "LK", 1, 0, 0, 7, 7⟩] (by decide) rfl none none "AnzahlFall" none none
